import Mathlib

/-!
Verification of the CERT-In SBOM Mapper's caching and fetch-orchestration
core: a shallow embedding of the JavaScript sources (`cacheService`,
`propertyMapperService`, and the merge loop in `App.js`) together with
theorems about the embedded definitions.

JavaScript-value conventions used throughout the embedding:
* an absent / `undefined` / `null` field is `Option.none`;
* string truthiness (`s && ...`, `s || d`) is "nonempty string";
* machine arithmetic of the 32-bit rolling hash is modelled on `Int`
  with an explicit reduction modulo `2 ^ 32`.
-/

set_option linter.unusedVariables false
set_option maxRecDepth 100000

namespace SbomMapper

/-! ## JavaScript primitives -/

/-- Truthiness of an optional string: `undefined`/`null` and the empty
string are falsy, every other string is truthy. -/
def strTruthy : Option String → Bool
  | some s => s ≠ ""
  | none => false

/-- The JavaScript expression `a || b` on optional strings: the left
operand when it is truthy, otherwise the right operand. -/
def jsOrOptS (a b : Option String) : Option String :=
  if strTruthy a then a else b

/-- The JavaScript expression `a || d` where `d` is a (string) default. -/
def jsOrStr (a : Option String) (d : String) : String :=
  match a with
  | some s => if s ≠ "" then s else d
  | none => d

/-- The JavaScript expression `a || b || d`. -/
def jsOr2 (a b : Option String) (d : String) : String :=
  jsOrStr a (jsOrStr b d)

/-- Character-list test used by `startsIncl`: does the first list start
with the second one? -/
def startsL : List Char → List Char → Bool
  | _, [] => true
  | [], _ :: _ => false
  | a :: as, b :: bs => a = b && startsL as bs

/-- Character-list model of `String.prototype.includes`. -/
def inclL : List Char → List Char → Bool
  | [], n => n.isEmpty
  | a :: t, n => startsL (a :: t) n || inclL t n

/-- The JavaScript expression `s.includes(sub)`. -/
def strIncludes (s sub : String) : Bool :=
  inclL s.data sub.data

/-- Character-list model of `String.prototype.replace` with a string
pattern: only the first occurrence is replaced. -/
def jsReplaceFirstL (l p r : List Char) : List Char :=
  match l with
  | [] => if p.isEmpty then r else []
  | a :: t => if startsL (a :: t) p then r ++ (a :: t).drop p.length
              else a :: jsReplaceFirstL t p r

/-- The JavaScript expression `s.replace(pat, rep)` (string pattern,
first occurrence only). -/
def jsReplaceFirst (s pat rep : String) : String :=
  String.mk (jsReplaceFirstL s.data pat.data rep.data)

/-- Code-unit lexicographic strict comparison of character lists, the
order `Array.prototype.sort` uses for strings by default. -/
def strLtL : List Char → List Char → Bool
  | [], [] => false
  | [], _ :: _ => true
  | _ :: _, [] => false
  | a :: as, b :: bs =>
      if a.toNat < b.toNat then true
      else if b.toNat < a.toNat then false
      else strLtL as bs

/-- Non-strict code-unit comparison of strings. -/
def jsStrLe (a b : String) : Bool :=
  !(strLtL b.data a.data)

/-- Stable insertion of a string into a sorted list, used to model the
default (code-unit lexicographic) comparator of `Array.prototype.sort`. -/
def insertStr (s : String) : List String → List String
  | [] => [s]
  | x :: t => if jsStrLe s x then s :: x :: t else x :: insertStr s t

/-- The JavaScript expression `keys.sort()` with the default string
comparator (insertion sort, ascending code-unit order). -/
def sortStrings : List String → List String
  | [] => []
  | x :: t => insertStr x (sortStrings t)

/-- The JavaScript expression `xs.indexOf(s)`: index of the first
occurrence, `-1` when absent. -/
def jsIndexOfAux (s : String) : List String → Int → Int
  | [], _ => -1
  | x :: t, i => if x = s then i else jsIndexOfAux s t (i + 1)

/-- Index of `s` in `xs` (`-1` when absent), as `Array.prototype.indexOf`. -/
def jsIndexOf (xs : List String) (s : String) : Int :=
  jsIndexOfAux s xs 0

/-- Stable insertion by an integer key, modelling one step of a stable
comparator sort. -/
def insertByKey (key : String → Int) (x : String) : List String → List String
  | [] => [x]
  | y :: t => if key x ≤ key y then x :: y :: t else y :: insertByKey key x t

/-- Stable sort of strings by an integer key, modelling
`xs.sort((a, b) => key(a) - key(b))` (ES2019 sorts are stable). -/
def sortByKey (key : String → Int) : List String → List String
  | [] => []
  | x :: t => insertByKey key x (sortByKey key t)

/-- The expression `s.charAt(0) + s.slice(1).toLowerCase()`. -/
def titleCase (s : String) : String :=
  match s.data with
  | [] => ""
  | c :: t => String.mk (c :: t.map Char.toLower)

/-! ## The 32-bit rolling hash (`generateComponentChecksum` /
`generateFileChecksum` tail) -/

/-- Reduction of an integer into the signed 32-bit range, as performed by
JavaScript's `| 0` / `&` coercions (`hash = hash & hash`). -/
def toInt32 (n : Int) : Int :=
  let r := n % 4294967296
  if r < 2147483648 then r else r - 4294967296

/-- One step of the rolling hash:
`hash = ((hash << 5) - hash) + char; hash = hash & hash`. -/
def hashStep (h : Int) (c : Nat) : Int :=
  toInt32 (toInt32 (h * 32) - h + c)

/-- The hash loop over the data string. Characters correspond to
`charCodeAt` (the sources only hash BMP text, where the code unit equals
the code point). -/
def hashString (s : String) : Int :=
  s.data.foldl (fun h c => hashStep h c.toNat) 0

/-- Digit characters for `Number.prototype.toString(36)`. -/
def base36Digit (n : Nat) : Char :=
  if n < 10 then Char.ofNat (48 + n) else Char.ofNat (87 + n)

/-- Base-36 digits of `n`, with enough structural fuel: 32 digits cover
every `n < 36 ^ 32`, far above the `2 ^ 31` bound of `Math.abs` of a
32-bit hash. -/
def base36Go : Nat → Nat → List Char
  | 0, _ => []
  | fuel + 1, n =>
      if n < 36 then [base36Digit n]
      else base36Go fuel (n / 36) ++ [base36Digit (n % 36)]

/-- The JavaScript expression `n.toString(36)` for natural `n`. -/
def base36 (n : Nat) : String :=
  String.mk (base36Go 32 n)

/-! ## JSON values and `JSON.stringify` with an array replacer -/

/-- JSON-ish JavaScript values. Objects are association lists; lookup
uses the first occurrence (actual JavaScript objects never carry
duplicate keys). -/
inductive JsVal where
  | null
  | bool (b : Bool)
  | num (n : Int)
  | str (s : String)
  | arr (xs : List JsVal)
  | obj (fs : List (String × JsVal))

/-- A JavaScript object, as it reaches `generateComponentChecksum`. -/
def JsObj := List (String × JsVal)

/-- Property access `o[k]` on an object's field list. -/
def objGet : List (String × JsVal) → String → Option JsVal
  | [], _ => none
  | (k, v) :: t, q => if k = q then some v else objGet t q

/-- Property access `v[k]` on an arbitrary value: non-objects have no
(string-keyed) own properties here. -/
def objGetV : JsVal → String → Option JsVal
  | JsVal.obj fs, q => objGet fs q
  | _, _ => none

/-- JavaScript truthiness of a value. -/
def jsTruthy : JsVal → Bool
  | JsVal.null => false
  | JsVal.bool b => b
  | JsVal.num n => n ≠ 0
  | JsVal.str s => s ≠ ""
  | JsVal.arr _ => true
  | JsVal.obj _ => true

/-- The JavaScript expression `a || b` on optional values. -/
def jsOrOptV (a b : Option JsVal) : Option JsVal :=
  match a with
  | some v => if jsTruthy v then some v else b
  | none => b

/-- Strict equality `a === b` on possibly-undefined values. Two
`undefined` operands compare equal; object and array operands use
reference identity, which is `false` for the distinct parse nodes this
code compares. -/
def jsStrictEq : Option JsVal → Option JsVal → Bool
  | none, none => true
  | some (JsVal.str a), some (JsVal.str b) => a = b
  | some (JsVal.num a), some (JsVal.num b) => a = b
  | some (JsVal.bool a), some (JsVal.bool b) => a = b
  | some JsVal.null, some JsVal.null => true
  | _, _ => false

/-- Hexadecimal digit for `\u00..` escapes. -/
def hexDigit (n : Nat) : Char :=
  if n < 10 then Char.ofNat (48 + n) else Char.ofNat (87 + n)

/-- Four-digit hexadecimal rendering used by JSON string escapes. -/
def hex4 (n : Nat) : String :=
  String.mk [hexDigit (n / 4096 % 16), hexDigit (n / 256 % 16),
             hexDigit (n / 16 % 16), hexDigit (n % 16)]

/-- JSON escape of a single character, as `JSON.stringify` performs it. -/
def escChar (c : Char) : String :=
  if c = '\"' then "\\\""
  else if c = '\\' then "\\\\"
  else if c = '\n' then "\\n"
  else if c = '\t' then "\\t"
  else if c = '\r' then "\\r"
  else if c.toNat = 8 then "\\b"
  else if c.toNat = 12 then "\\f"
  else if c.toNat < 32 then "\\u" ++ hex4 c.toNat
  else String.mk [c]

/-- A JSON string literal with escapes. -/
def jsonQuote (s : String) : String :=
  "\"" ++ String.join (s.data.map escChar) ++ "\""

/-- First-occurrence lookup on already-serialized object fields. -/
def lookupS : List (String × String) → String → Option String
  | [], _ => none
  | (k, v) :: t, q => if k = q then some v else lookupS t q

/-- Assemble an object's JSON body from the replacer key list `ks` and
the table of serialized fields: with an **array replacer**,
`JSON.stringify` emits exactly the replacer's keys, in replacer order,
skipping keys the object does not carry. -/
def assembleObj (ks : List String) (tbl : List (String × String)) : String :=
  String.intercalate ","
    (ks.filterMap fun k => (lookupS tbl k).map fun sv => jsonQuote k ++ ":" ++ sv)

mutual
/-- Embedding of `JSON.stringify(v, ks)` where `ks` is an array replacer: the replacer
filters and orders the keys of every object at **every depth**; array
elements are always kept. -/
def serVal (ks : List String) : JsVal → String
  | JsVal.null => "null"
  | JsVal.bool b => cond b "true" "false"
  | JsVal.num n => toString n
  | JsVal.str s => jsonQuote s
  | JsVal.arr xs => "[" ++ String.intercalate "," (serArr ks xs) ++ "]"
  | JsVal.obj fs => "\x7b" ++ assembleObj ks (serFields ks fs) ++ "\x7d"

/-- Serialization of the elements of an array. -/
def serArr (ks : List String) : List JsVal → List String
  | [] => []
  | v :: t => serVal ks v :: serArr ks t

/-- Serialization of all fields of an object (the replacer then selects
among them in `assembleObj`). -/
def serFields (ks : List String) : List (String × JsVal) → List (String × String)
  | [] => []
  | (k, v) :: t => (k, serVal ks v) :: serFields ks t
end

/-! ## `CacheService.generateComponentChecksum` (Dockerfile lines 134-159)
and `CacheService.generateFileChecksum` (lines 194-223) -/

/-- The replacer `Object.keys(componentData).sort()`: the literal always
carries these six keys, in insertion order, before sorting. -/
def componentChecksumKeys : List String :=
  sortStrings ["name", "version", "purl", "group", "externalReferences", "vulnerabilities"]

/-- The filter predicate
`v.affects && v.affects.some(a => a.ref === (component["bom-ref"] || component.bomRef))`.
A truthy non-array `affects` would throw in JavaScript and cannot occur
in parsed SBOM data; it is treated as a non-match. -/
def vulnAffectsComponent (refVal : Option JsVal) (v : JsVal) : Bool :=
  match objGetV v "affects" with
  | some (JsVal.arr as) => as.any fun a => jsStrictEq (objGetV a "ref") refVal
  | _ => false

/-- Build an object literal from fields whose values may be `undefined`:
`JSON.stringify` skips `undefined`-valued keys, so they are dropped. -/
def objOfOptFields (fields : List (String × Option JsVal)) : JsVal :=
  JsVal.obj (fields.filterMap fun p => p.2.map fun v => (p.1, v))

/-- Embedding of `CacheService.generateComponentChecksum(component, sbomVulnerabilities)`:
selects the relevant component fields plus the vulnerabilities affecting
the component, serializes with the sorted-keys array replacer, hashes and
renders `"component:" + Math.abs(hash).toString(36)`. -/
def generateComponentChecksum (component : JsObj) (sbomVulnerabilities : List JsVal) : String :=
  let refVal := jsOrOptV (objGet component "bom-ref") (objGet component "bomRef")
  let filtered := sbomVulnerabilities.filter (vulnAffectsComponent refVal)
  let componentData := objOfOptFields
    [("name", objGet component "name"),
     ("version", objGet component "version"),
     ("purl", objGet component "purl"),
     ("group", objGet component "group"),
     ("externalReferences", objGet component "externalReferences"),
     ("vulnerabilities", some (JsVal.arr filtered))]
  let dataString := serVal componentChecksumKeys componentData
  "component:" ++ base36 (hashString dataString).natAbs

/-- The replacer `Object.keys(fileData).sort()` of `generateFileChecksum`. -/
def fileChecksumKeys : List String :=
  sortStrings ["components", "vulnerabilities", "metadata"]

/-- The per-component projection of `generateFileChecksum`:
`{name, version, purl, group, externalReferences, bomRef}`. -/
def fileComponentEntry (c : JsVal) : JsVal :=
  objOfOptFields
    [("name", objGetV c "name"),
     ("version", objGetV c "version"),
     ("purl", objGetV c "purl"),
     ("group", objGetV c "group"),
     ("externalReferences", objGetV c "externalReferences"),
     ("bomRef", jsOrOptV (objGetV c "bom-ref") (objGetV c "bomRef"))]

/-- Embedding of `CacheService.generateFileChecksum(sbomData)`. A truthy non-array
`components` field would throw in JavaScript; it is modelled as the
absent case. -/
def generateFileChecksum (sbomData : JsObj) : String :=
  let comps : List JsVal :=
    match objGet sbomData "components" with
    | some (JsVal.arr cs) => cs.map fileComponentEntry
    | _ => []
  let vulns : JsVal :=
    match objGet sbomData "vulnerabilities" with
    | some v => if jsTruthy v then v else JsVal.arr []
    | none => JsVal.arr []
  let meta : JsVal := objOfOptFields
    [("timestamp", (objGet sbomData "metadata").bind fun m => objGetV m "timestamp"),
     ("version", (objGet sbomData "metadata").bind fun m => objGetV m "version")]
  let fileData := JsVal.obj
    [("components", JsVal.arr comps), ("vulnerabilities", vulns), ("metadata", meta)]
  "file:" ++ base36 (hashString (serVal fileChecksumKeys fileData)).natAbs

/-! ## Structured data model of the property-mapper pipeline

`extractPackageInfo`, the four external clients and
`VulnerabilityService.determineCriticality` live outside this
repository's sources; their *results* are modelled as typed records (per
the collaborator interfaces) and passed to the orchestrator as inputs. -/

/-- Result of `PackageRegistryService.extractPackageInfo` (external). -/
structure PkgInfo where
  ecosystem : String
  name : String
  group : Option String
  version : Option String
deriving DecidableEq

/-- Package-registry record: `{releaseDate?, license?, latestVersion?, author?, description?}`. -/
structure PkgData where
  releaseDate : Option String
  license : Option String
  latestVersion : Option String
  author : Option String
  description : Option String
deriving DecidableEq

/-- Vulnerability aggregate:
`{hasVulnerabilities, totalVulns, fixedVersions[], maxCvssScore}`.
`fixedVersions = none` models a missing / non-array field
(`Array.isArray` fails). -/
structure VulnData where
  hasVulnerabilities : Bool
  totalVulns : Option Nat
  fixedVersions : Option (List String)
  maxCvssScore : Option ℚ
deriving DecidableEq

/-- Repository-metadata record: `{releaseDate?, license?, stars?}`. -/
structure GhData where
  releaseDate : Option String
  license : Option String
  stars : Option Nat
deriving DecidableEq

/-- The component fields the property-mapper reads. `bomRefH` is the
hyphenated `component["bom-ref"]`, `bomRefC` the `component.bomRef`
spelling. -/
structure Component where
  name : Option String
  version : Option String
  purl : Option String
  bomRefH : Option String
  bomRefC : Option String
deriving DecidableEq

/-- A document-level vulnerability record as `determineCriticalityFromSbom`
reads it: `affects = none` models a missing / non-array field, an element
models `a?.ref`; `ratings` elements model `r.severity`. -/
structure SbomVuln where
  affects : Option (List (Option String))
  ratings : Option (List (Option String))
deriving DecidableEq

/-- The derived CERT-In `PropertySet` (the twelve keys the mapper
assigns). -/
structure PropertySet where
  patchStatus : String
  releaseDate : String
  eolDate : String
  criticality : String
  usageRestrictions : String
  comments : String
  executable : String
  archive : String
  structured : String
  supplier : String
  origin : String
  uniqueId : String
deriving DecidableEq

/-- Embedding of `PropertyMapperService.computePatchStatus` (lines 570-584). -/
def computePatchStatus (vulnData : Option VulnData) (pkgInfo : Option PkgInfo)
    (pkgData : Option PkgData) : String :=
  if (vulnData.map (fun v => v.hasVulnerabilities)).getD false then
    match vulnData.bind (fun v => v.fixedVersions) with
    | some (f :: _) => "Update available (>= " ++ f ++ ")"
    | _ => "Update available (>= NA)"
  else
    match pkgData.bind (fun d => d.latestVersion), pkgInfo.bind (fun p => p.version) with
    | some l, some v =>
        if l ≠ "" ∧ v ≠ "" ∧ l ≠ v then "Update available (latest " ++ l ++ ")"
        else "Up to date"
    | _, _ => "Up to date"

/-- Embedding of `PropertyMapperService.determineUsageRestrictions` (lines 363-370). -/
def determineUsageRestrictions (license : Option String) : String :=
  match license with
  | none => "NA"
  | some l0 =>
    if l0 = "" then "NA"
    else
      let l := l0.toLower
      if strIncludes l "agpl" then "AGPL License - Strong copyleft restrictions"
      else if strIncludes l "gpl" then "GPL License - Copyleft restrictions apply"
      else if strIncludes l "mit" || strIncludes l "apache" then
        "Permissive license - Minimal restrictions"
      else "NA"

/-- The expression `githubData?.stars || 0`. -/
def ghStars (githubData : Option GhData) : Nat :=
  (githubData.bind (fun g => g.stars)).getD 0

/-- Embedding of `PropertyMapperService.determineOrigin` (lines 372-376). -/
def determineOrigin (packageData : Option PkgData) (githubData : Option GhData) : String :=
  if 0 < ghStars githubData then "Open-source"
  else if (match packageData.bind (fun d => d.license) with
           | some l => l ≠ "" && strIncludes l.toLower "proprietary"
           | none => false) then "Proprietary"
  else "Open-source"

/-- Embedding of `PropertyMapperService.determineSupplier` (lines 378-382). -/
def determineSupplier (packageData : Option PkgData) (githubData : Option GhData) : String :=
  if 0 < ghStars githubData then "Open-source"
  else if strTruthy (packageData.bind (fun d => d.author)) then "Vendor"
  else "Third-party"

/-- Final fallback of `generateUniqueIdentifier`: `component.name || "NA"`. -/
def uidFromName (c : Component) : String :=
  jsOrStr c.name "NA"

/-- The ecosystem branch of `generateUniqueIdentifier` (lines 396-407). -/
def uidFromEcosystem (c : Component) (pkgInfo : Option PkgInfo) (supplier : String) : String :=
  match pkgInfo with
  | some pi =>
      if pi.ecosystem ≠ "" ∧ pi.name ≠ "" then
        let eco := pi.ecosystem.toLower
        let ver := match c.version with
          | some v => if v ≠ "" then "@" ++ v else ""
          | none => ""
        if eco = "maven" ∧ strTruthy pi.group then
          "pkg:supplier/" ++ supplier ++ "/" ++ eco ++ "/" ++ pi.group.getD "" ++ "/" ++
            pi.name ++ ver
        else
          "pkg:supplier/" ++ supplier ++ "/" ++ eco ++ "/" ++ pi.name ++ ver
      else uidFromName c
  | none => uidFromName c

/-- Embedding of `PropertyMapperService.generateUniqueIdentifier` (lines 384-411). -/
def generateUniqueIdentifier (c : Component) (pkgInfo : Option PkgInfo)
    (supplier : String) : String :=
  match c.purl with
  | some p =>
      if p ≠ "" then
        let purlParts := p.splitOn "/"
        if 2 ≤ purlParts.length then
          let ty := jsReplaceFirst (purlParts.headD "") "pkg:" ""
          let nm := purlParts.getLastD ""
          "pkg:supplier/" ++ supplier ++ "/" ++ ty ++ "/" ++ nm
        else uidFromEcosystem c pkgInfo supplier
      else uidFromEcosystem c pkgInfo supplier
  | none => uidFromEcosystem c pkgInfo supplier

/-- Embedding of `PropertyMapperService.buildComments` (lines 413-419). -/
def buildComments (packageData : Option PkgData) (vulnData : Option VulnData)
    (githubData : Option GhData) : String :=
  let notes : List String :=
    (match packageData.bind (fun d => d.description) with
     | some d => if d ≠ "" then ["Description: " ++ d] else []
     | none => [])
    ++ (match vulnData.bind (fun v => v.totalVulns) with
        | some n => if 0 < n then [toString n ++ " known vulnerabilities"] else []
        | none => [])
    ++ (if 100 < ghStars githubData then
          ["Popular project (" ++ toString (ghStars githubData) ++ " stars)"]
        else [])
  if notes.isEmpty then "NA" else String.intercalate "; " notes

/-- The fixed severity order of `determineCriticalityFromSbom`. -/
def severityOrder : List String := ["CRITICAL", "HIGH", "MEDIUM", "LOW"]

/-- One iteration of the `for (const v of sbomVulns)` loop of
`determineCriticalityFromSbom` (lines 551-564), threading the running
`max`. -/
def sbomCritStep (refv : Option String) (mx : Option String) (v : SbomVuln) : Option String :=
  match v.affects with
  | none => mx
  | some affs =>
    match v.ratings with
    | none => mx
    | some [] => mx
    | some (r0 :: rrest) =>
      let affectsThis := affs.any fun a =>
        match a, refv with
        | some ar, some rv => ar ≠ "" && rv ≠ "" && ar = rv
        | _, _ => false
      if affectsThis then
        let sev := (r0 :: rrest).map fun r => (jsOrStr r "").toUpper
        let highest := (sortByKey (jsIndexOf severityOrder) sev).headD ""
        if highest ≠ "" then
          match mx with
          | none => some highest
          | some m =>
              if jsIndexOf severityOrder highest < jsIndexOf severityOrder m then some highest
              else mx
        else mx
      else mx

/-- Embedding of `PropertyMapperService.determineCriticalityFromSbom` (lines 547-568). -/
def determineCriticalityFromSbom (sbomVulns : List SbomVuln) (c : Component) : Option String :=
  if sbomVulns.isEmpty then none
  else
    let refv := jsOrOptS c.bomRefH (jsOrOptS c.bomRefC none)
    match sbomVulns.foldl (sbomCritStep refv) none with
    | none => none
    | some m => some (titleCase m)

/-- Embedding of `PropertyMapperService.determineCriticalityFromOsv` (lines 586-593). -/
def determineCriticalityFromOsv (vulnData : Option VulnData) : Option String :=
  let score : ℚ := (vulnData.bind (fun v => v.maxCvssScore)).getD 0
  if 9 ≤ score then some "Critical"
  else if 7 ≤ score then some "High"
  else if 4 ≤ score then some "Medium"
  else if 0 < score then some "Low"
  else none

/-- The property-construction block of the full-fetch path of
`fetchComponentData` (lines 468-499), as a function of the four source
values. `extCriticality` stands for the external
`VulnerabilityService.determineCriticality`. -/
def mergeProps (c : Component) (pkgInfo : Option PkgInfo) (sbomVulns : List SbomVuln)
    (extCriticality : Option VulnData → String)
    (pkgData : Option PkgData) (vulnData : Option VulnData) (ghData : Option GhData)
    (eolDate : Option String) : PropertySet :=
  let patch := computePatchStatus vulnData pkgInfo pkgData
  let release := jsOr2 (pkgData.bind (fun d => d.releaseDate))
    (ghData.bind (fun g => g.releaseDate)) "NA"
  let eol := jsOrStr eolDate "NA"
  let crit :=
    match jsOrOptS (determineCriticalityFromSbom sbomVulns c)
        (jsOrOptS (determineCriticalityFromOsv vulnData) none) with
    | some s => s
    | none => extCriticality vulnData
  let license := jsOrOptS (pkgData.bind (fun d => d.license))
    (jsOrOptS (ghData.bind (fun g => g.license)) none)
  let usage := determineUsageRestrictions license
  let comments0 := buildComments pkgData vulnData ghData
  let executable :=
    match pkgInfo with
    | some pi => if pi.ecosystem = "npm" then "Yes" else "No"
    | none => "No"
  let supplier := determineSupplier pkgData ghData
  let origin := determineOrigin pkgData ghData
  let uid := generateUniqueIdentifier c pkgInfo supplier
  let rtxt : Option String :=
    match vulnData.bind (fun v => v.fixedVersions) with
    | some (f :: _) => some ("Recommended version: " ++ f)
    | _ => if patch = "Update available" then some "Recommended version: NA" else none
  let comments :=
    match rtxt with
    | some t => if comments0 = "NA" then t else comments0 ++ "; " ++ t
    | none => comments0
  ⟨patch, release, eol, crit, usage, comments, executable, "No", "Yes", supplier, origin, uid⟩

/-- The degraded result built in the `catch` branch of
`fetchComponentData` (lines 526-539). -/
def errorProps (c : Component) : PropertySet :=
  { patchStatus := "Error fetching data"
    releaseDate := "NA"
    eolDate := "NA"
    criticality := "Unknown"
    usageRestrictions := "NA"
    comments := "Error occurred while fetching component data"
    executable := "Unknown"
    archive := "No"
    structured := "Yes"
    supplier := "Unknown"
    origin := "Unknown"
    uniqueId := jsOr2 c.purl c.name "NA" }

/-- The full concurrent-fetch path of `fetchComponentData`
(lines 442-544): the four external calls are awaited jointly with
`Promise.all`, so a single rejected promise rejects the whole group and
control reaches the `catch` branch, which returns (and caches) the fixed
degraded property set. Each `Except` argument is the settled outcome of
one of the four promises. -/
def fetchComponentDataFull (c : Component) (pkgInfo : Option PkgInfo)
    (sbomVulns : List SbomVuln) (extCriticality : Option VulnData → String)
    (pkgRes : Except Unit (Option PkgData)) (vulnRes : Except Unit (Option VulnData))
    (ghRes : Except Unit (Option GhData)) (eolRes : Except Unit (Option String)) : PropertySet :=
  match pkgRes, vulnRes, ghRes, eolRes with
  | Except.ok pkgData, Except.ok vulnData, Except.ok ghData, Except.ok eolDate =>
      mergeProps c pkgInfo sbomVulns extCriticality pkgData vulnData ghData eolDate
  | _, _, _, _ => errorProps c

/-! ## The cached fast path (`isAllDataCached`,
`buildPropertiesFromCachedData`, lines 292-361) -/

/-- Embedding of `CacheService.generateKey(type, ...params)` (lines 78-80):
`` `${type}:${params.join(':')}` ``. Callers pass `""` for an
`undefined` parameter, as `Array.prototype.join` renders it. -/
def generateKey (ty : String) (params : List String) : String :=
  ty ++ ":" ++ String.intercalate ":" params

/-- The expression `repoUrl.split('/').slice(-2).join('/')`. -/
def lastTwoSegs (u : String) : String :=
  let parts := u.splitOn "/"
  String.intercalate "/" (parts.drop (parts.length - 2))

/-- Embedding of `PropertyMapperService.isAllDataCached` (lines 292-309). -/
def isAllDataCached (pkgInfo : Option PkgInfo) (repoUrl : Option String)
    (cacheHas : String → Bool) : Bool :=
  match pkgInfo with
  | none => true
  | some pi =>
    if pi.ecosystem = "unknown" then true
    else
      let pkgKey : Option String :=
        if pi.ecosystem = "npm" then some (generateKey "npm" [pi.name])
        else if pi.ecosystem = "pypi" then some (generateKey "pypi" [pi.name])
        else if pi.ecosystem = "maven" then
          some (generateKey "maven" [pi.group.getD "", pi.name])
        else none
      let vulnKey := generateKey "vuln" [pi.ecosystem, pi.name]
      let ghKey : Option String :=
        match repoUrl with
        | some u => if u ≠ "" then some (generateKey "github" [lastTwoSegs u]) else none
        | none => none
      (match pkgKey with | some k => cacheHas k | none => true) &&
      cacheHas vulnKey &&
      (match ghKey with | some k => cacheHas k | none => true)

/-- A value stored in the shared cache under a dependency key. The
JavaScript cache is untyped; reading a value of an unexpected shape
yields only `undefined` fields, which every consumer reaches through
optional chaining — behaviourally identical to the `none` this model
returns for a shape mismatch. -/
inductive CachedData where
  | pkgD (d : PkgData)
  | vulnD (d : VulnData)
  | ghD (d : GhData)
deriving DecidableEq

/-- Read a cached value as a package-registry record. -/
def asPkg : Option CachedData → Option PkgData
  | some (CachedData.pkgD d) => some d
  | _ => none

/-- Read a cached value as a vulnerability aggregate. -/
def asVuln : Option CachedData → Option VulnData
  | some (CachedData.vulnD d) => some d
  | _ => none

/-- Read a cached value as a repository-metadata record. -/
def asGh : Option CachedData → Option GhData
  | some (CachedData.ghD d) => some d
  | _ => none

/-- The package-data read of the fast path (lines 314-320). -/
def pkgDataFromCache (pi : PkgInfo) (cacheGet : String → Option CachedData) : Option PkgData :=
  if pi.ecosystem = "npm" then asPkg (cacheGet (generateKey "npm" [pi.name]))
  else if pi.ecosystem = "pypi" then asPkg (cacheGet (generateKey "pypi" [pi.name]))
  else if pi.ecosystem = "maven" then
    asPkg (cacheGet (generateKey "maven" [pi.group.getD "", pi.name]))
  else none

/-- The repository-data read of the fast path (line 323). -/
def ghDataFromCache (repoUrl : Option String) (cacheGet : String → Option CachedData) :
    Option GhData :=
  match repoUrl with
  | some u => if u ≠ "" then asGh (cacheGet (generateKey "github" [lastTwoSegs u])) else none
  | none => none

/-- Embedding of `PropertyMapperService.buildPropertiesFromCachedData` (lines
312-361), transcribed on its own (the property-building block is a
source-level duplicate of the one in `fetchComponentData`). The
synchronous external `lifecycle.fetchEol` value is the `eolDate` input;
`pkgInfo` is taken non-null — the source dereferences
`pkgInfo.ecosystem` on line 322 and would throw otherwise. -/
def buildPropertiesFromCachedData (c : Component) (pi : PkgInfo) (repoUrl : Option String)
    (sbomVulns : List SbomVuln) (extCriticality : Option VulnData → String)
    (cacheGet : String → Option CachedData) (eolDate : Option String) : PropertySet :=
  let pkgData := pkgDataFromCache pi cacheGet
  let vulnData := asVuln (cacheGet (generateKey "vuln" [pi.ecosystem, pi.name]))
  let ghData := ghDataFromCache repoUrl cacheGet
  let patch := computePatchStatus vulnData (some pi) pkgData
  let release := jsOr2 (pkgData.bind (fun d => d.releaseDate))
    (ghData.bind (fun g => g.releaseDate)) "NA"
  let eol := jsOrStr eolDate "NA"
  let crit :=
    match jsOrOptS (determineCriticalityFromSbom sbomVulns c)
        (jsOrOptS (determineCriticalityFromOsv vulnData) none) with
    | some s => s
    | none => extCriticality vulnData
  let license := jsOrOptS (pkgData.bind (fun d => d.license))
    (jsOrOptS (ghData.bind (fun g => g.license)) none)
  let usage := determineUsageRestrictions license
  let comments0 := buildComments pkgData vulnData ghData
  let executable := if pi.ecosystem = "npm" then "Yes" else "No"
  let supplier := determineSupplier pkgData ghData
  let origin := determineOrigin pkgData ghData
  let uid := generateUniqueIdentifier c (some pi) supplier
  let rtxt : Option String :=
    match vulnData.bind (fun v => v.fixedVersions) with
    | some (f :: _) => some ("Recommended version: " ++ f)
    | _ => if patch = "Update available" then some "Recommended version: NA" else none
  let comments :=
    match rtxt with
    | some t => if comments0 = "NA" then t else comments0 ++ "; " ++ t
    | none => comments0
  ⟨patch, release, eol, crit, usage, comments, executable, "No", "Yes", supplier, origin, uid⟩

/-! ## The in-memory cache `Map` and the TTL operations
(`CacheService.get/set/has/getStats`, lines 83-112, and
`setWithTTL`/`getWithTTL`, lines 245-267) -/

/-- The wrapper object `{value, timestamp, ttl}` stored by `setWithTTL`. -/
structure TEntry (V : Type) where
  value : V
  timestamp : Nat
  ttl : Nat
deriving DecidableEq

/-- The `Map` backing `CacheService.cache`, restricted to entries written
by `setWithTTL`: an association list with `Map` semantics (unique keys,
insertion order preserved, `set` replaces in place). -/
def TCache (V : Type) := List (String × TEntry V)

/-- Embedding of `Map.prototype.get`, the body of `CacheService.get` (lines 83-85). -/
def mapGet {V : Type} : TCache V → String → Option (TEntry V)
  | [], _ => none
  | (k, e) :: t, q => if k = q then some e else mapGet t q

/-- Embedding of `Map.prototype.set`: replace the entry of an existing key in place,
otherwise append. -/
def mapSet {V : Type} : TCache V → String → TEntry V → TCache V
  | [], q, e => [(q, e)]
  | (k, e0) :: t, q, e => if k = q then (q, e) :: t else (k, e0) :: mapSet t q e

/-- Embedding of `Map.prototype.delete`. -/
def mapDelete {V : Type} : TCache V → String → TCache V
  | [], _ => []
  | (k, e) :: t, q => if k = q then t else (k, e) :: mapDelete t q

/-- Embedding of `CacheService.has` (lines 94-96): `Map.prototype.has`. -/
def mapHas {V : Type} (m : TCache V) (k : String) : Bool :=
  (mapGet m k).isSome

/-- Embedding of `CacheService.setWithTTL(key, value, ttlMs)` (lines 245-253); the
current time stands in for `Date.now()`. Persistence is a durability
side effect and not modelled. -/
def setWithTTL {V : Type} (m : TCache V) (key : String) (value : V) (ttlMs now : Nat) :
    TCache V :=
  mapSet m key ⟨value, now, ttlMs⟩

/-- Embedding of `CacheService.getWithTTL(key)` (lines 256-267): returns the possibly
mutated cache together with the result (`none` models `null`). -/
def getWithTTL {V : Type} (m : TCache V) (key : String) (now : Nat) :
    TCache V × Option V :=
  match mapGet m key with
  | none => (m, none)
  | some e =>
      if 0 < e.ttl ∧ e.ttl < now - e.timestamp then (mapDelete m key, none)
      else (m, some e.value)

/-- The record returned by `CacheService.getStats` (lines 106-112). -/
structure CacheStats where
  size : Nat
  sessionDuration : Nat
  keys : List String
deriving DecidableEq

/-- Embedding of `CacheService.getStats()`: `{size, sessionDuration, keys}`. -/
def getStats {V : Type} (m : TCache V) (now sessionStartTime : Nat) : CacheStats :=
  ⟨m.length, now - sessionStartTime, m.map Prod.fst⟩

/-! ## Snapshot loading (`CacheService.loadFromStorage`, lines 32-52) -/

/-- The parsed persisted snapshot `{cache, timestamp, sessionStartTime}`;
every field may be missing in a hand-tampered snapshot. -/
structure SnapData (V : Type) where
  cache : Option (List (String × V))
  timestamp : Option Nat
  sessionStartTime : Option Nat

/-- Embedding of `CacheService.maxCacheAge`: 24 hours in milliseconds. -/
def maxCacheAge : Nat := 24 * 60 * 60 * 1000

/-- The expression `n || d` on an optional number (`0` is falsy). -/
def jsOrNat (o : Option Nat) (d : Nat) : Nat :=
  match o with
  | some n => if n ≠ 0 then n else d
  | none => d

/-- State of the cache service right after construction: the in-memory
map, `sessionStartTime`, and the persisted item under the storage key. -/
structure LoadResult (V : Type) where
  cache : List (String × V)
  sessionStartTime : Nat
  storage : Option (Except Unit (SnapData V))

/-- Embedding of `CacheService.loadFromStorage` (lines 32-52) as run by the
constructor. `stored = none` models an absent item;
`some (Except.error ())` a stored string `JSON.parse` throws on. The
expired and corrupt branches call `clearStorage` (lines 69-75), leaving
the freshly constructed empty map untouched. -/
def loadFromStorage {V : Type} (stored : Option (Except Unit (SnapData V))) (now : Nat) :
    LoadResult V :=
  match stored with
  | none => ⟨[], now, none⟩
  | some (Except.error _) => ⟨[], now, none⟩
  | some (Except.ok d) =>
      match d.timestamp with
      | some ts =>
          if ts ≠ 0 ∧ now - ts < maxCacheAge then
            ⟨d.cache.getD [], jsOrNat d.sessionStartTime now, stored⟩
          else ⟨[], now, none⟩
      | none => ⟨[], now, none⟩

/-! ## The document-level property merge (`App.js` lines 13-26 and
193-212) -/

/-- A CycloneDX property `{name, value}`. -/
structure PropKV where
  name : String
  value : String
deriving DecidableEq

/-- The `CERT_IN_PROPERTIES` keys (App.js lines 13-26). -/
def certInKeys : List String :=
  ["Patch Status", "Release Date", "End-of-Life Date", "Criticality",
   "Usage Restrictions", "Comments or Notes", "Executable Property",
   "Archive Property", "Structured Property", "Unique Identifier",
   "Component Supplier", "Component Origin"]

/-- Replace the first property with the given name, else push
(App.js lines 202-207). -/
def replaceOrPush : List PropKV → String → String → List PropKV
  | [], k, v => [⟨k, v⟩]
  | p :: ps, k, v => if p.name = k then ⟨k, v⟩ :: ps else p :: replaceOrPush ps k v

/-- One iteration of the `CERT_IN_PROPERTIES.forEach` merge loop
(App.js lines 199-209): overwrite or add only when the derived value is
truthy and not `"NA"`. -/
def mergeStep (fetched : String → Option String) (acc : List PropKV) (key : String) :
    List PropKV :=
  match fetched key with
  | some val => if val ≠ "" ∧ val ≠ "NA" then replaceOrPush acc key val else acc
  | none => acc

/-- An uploaded component as the merge sees it: the `properties` array
plus every other field, which the object spread `{...c, properties}`
carries over verbatim. -/
structure AppComponent where
  rest : List (String × JsVal)
  properties : List PropKV

/-- The per-component body of the `merged` map (App.js lines 193-212). -/
def mergeComponent (c : AppComponent) (fetched : String → Option String) : AppComponent :=
  { c with properties := certInKeys.foldl (mergeStep fetched) c.properties }

/-- First property with the given name (`findIndex` / `find` semantics). -/
def findProp (ps : List PropKV) (k : String) : Option PropKV :=
  ps.find? (fun p => p.name == k)

/-! ## Concrete inputs used by the theorems below -/

/-- A component carrying a stable reference id `r`. -/
def c1Comp : JsObj :=
  [("name", JsVal.str "a"), ("version", JsVal.str "1"), ("bom-ref", JsVal.str "r")]

/-- A document vulnerability affecting `r`, rated HIGH. -/
def c1VulnHigh : JsVal :=
  JsVal.obj [("id", JsVal.str "V-1"),
             ("affects", JsVal.arr [JsVal.obj [("ref", JsVal.str "r")]]),
             ("ratings", JsVal.arr [JsVal.obj [("severity", JsVal.str "HIGH")]])]

/-- The same vulnerability rated LOW. -/
def c1VulnLow : JsVal :=
  JsVal.obj [("id", JsVal.str "V-1"),
             ("affects", JsVal.arr [JsVal.obj [("ref", JsVal.str "r")]]),
             ("ratings", JsVal.arr [JsVal.obj [("severity", JsVal.str "LOW")]])]

/-- A one-component SBOM document. -/
def c1SbomA : JsObj :=
  [("components", JsVal.arr [JsVal.obj [("name", JsVal.str "a"), ("version", JsVal.str "1")]])]

/-- The same document with a different component name and version. -/
def c1SbomB : JsObj :=
  [("components", JsVal.arr [JsVal.obj [("name", JsVal.str "b"), ("version", JsVal.str "2")]])]

/-- Concrete component for the fetch-orchestration theorems. -/
def c2Comp : Component := ⟨some "lodash", some "4.17.20", none, none, none⟩

/-- Concrete package info (npm). -/
def c2Pi : PkgInfo := ⟨"npm", "lodash", none, some "4.17.20"⟩

/-- A package-registry record with a release date. -/
def c2Pkg : PkgData := ⟨some "2024-01-01", none, none, none, none⟩

/-- Concrete component for the fast-path witness. -/
def c3Comp : Component := ⟨some "lodash", some "4.17.20", none, none, none⟩

/-- Concrete package info for the fast-path witness. -/
def c3Pi : PkgInfo := ⟨"npm", "lodash", none, some "4.17.20"⟩

/-- Cached package record for the fast-path witness. -/
def c3Pkg : PkgData := ⟨some "2024-01-01", some "MIT", some "4.17.21", none, none⟩

/-- Cached vulnerability aggregate for the fast-path witness. -/
def c3Vuln : VulnData := ⟨false, some 0, some [], some 0⟩

/-- A concrete cache with the npm and vulnerability keys resident. -/
def c3CacheGet : String → Option CachedData := fun k =>
  if k = "npm:lodash" then some (CachedData.pkgD c3Pkg)
  else if k = "vuln:npm:lodash" then some (CachedData.vulnD c3Vuln)
  else none

/-- Component for the missing-recommendation-note evaluation. -/
def c5Comp : Component := ⟨some "left-pad", some "1.0.0", none, none, none⟩

/-- Package info for the missing-recommendation-note evaluation. -/
def c5Pi : PkgInfo := ⟨"npm", "left-pad", none, some "1.0.0"⟩

/-- A vulnerability aggregate reporting vulnerabilities with an empty
fixed-version list. -/
def c5Vd : VulnData := ⟨true, some 2, some [], none⟩

/-- A component object with fields in one insertion order. -/
def c8a : JsObj :=
  [("name", JsVal.str "lodash"), ("version", JsVal.str "4.17.20"),
   ("description", JsVal.str "old text")]

/-- A component object equal to `c8a` on every relevant field but with
the opposite insertion order and a different irrelevant field
(`description`). -/
def c8b : JsObj :=
  [("description", JsVal.str "new text"), ("version", JsVal.str "4.17.20"),
   ("name", JsVal.str "lodash")]

/-- A component with an existing CERT-In property and a custom property. -/
def c9c : AppComponent :=
  ⟨[("name", JsVal.str "x")],
   [⟨"Patch Status", "Old"⟩, ⟨"Custom", "Keep"⟩]⟩

/-- A derived property map: one real value, one `"NA"` sentinel. -/
def c9f : String → Option String := fun k =>
  if k = "Patch Status" then some "Up to date"
  else if k = "Criticality" then some "NA"
  else none

/-! ## Map lemmas -/

theorem mapGet_mapSet_self {V : Type} (m : TCache V) (k : String) (e : TEntry V) :
    mapGet (mapSet m k e) k = some e := by
  induction m with
  | nil => simp [mapSet, mapGet]
  | cons p t ih =>
      obtain ⟨k0, e0⟩ := p
      by_cases h : k0 = k <;> simp [mapSet, mapGet, h, ih]

theorem mapGet_eq_none_of_not_mem {V : Type} (m : TCache V) (k : String)
    (h : k ∉ m.map Prod.fst) : mapGet m k = none := by
  induction m with
  | nil => rfl
  | cons p t ih =>
      obtain ⟨k0, e0⟩ := p
      simp only [List.map_cons, List.mem_cons, not_or] at h
      have hne : k0 ≠ k := fun hh => h.1 hh.symm
      simp [mapGet, hne, ih h.2]

theorem mem_map_fst_mapSet {V : Type} (m : TCache V) (k a : String) (e : TEntry V) :
    a ∈ (mapSet m k e).map Prod.fst ↔ a ∈ m.map Prod.fst ∨ a = k := by
  induction m with
  | nil => simp [mapSet]
  | cons p t ih =>
      obtain ⟨k0, e0⟩ := p
      by_cases h : k0 = k
      · subst h
        simp [mapSet]
        tauto
      · simp [mapSet, h, ih]
        tauto

theorem nodup_mapSet {V : Type} (m : TCache V) (k : String) (e : TEntry V)
    (h : (m.map Prod.fst).Nodup) : ((mapSet m k e).map Prod.fst).Nodup := by
  induction m with
  | nil => simp [mapSet]
  | cons p t ih =>
      obtain ⟨k0, e0⟩ := p
      simp only [List.map_cons, List.nodup_cons] at h
      by_cases hk : k0 = k
      · subst hk
        simpa [mapSet] using h
      · simp only [mapSet, hk, if_false, List.map_cons, List.nodup_cons]
        refine ⟨?_, ih h.2⟩
        rw [mem_map_fst_mapSet]
        push_neg
        exact ⟨h.1, hk⟩

theorem mapGet_mapDelete_self {V : Type} (m : TCache V) (k : String)
    (h : (m.map Prod.fst).Nodup) : mapGet (mapDelete m k) k = none := by
  induction m with
  | nil => rfl
  | cons p t ih =>
      obtain ⟨k0, e0⟩ := p
      simp only [List.map_cons, List.nodup_cons] at h
      by_cases hk : k0 = k
      · subst hk
        simpa [mapDelete] using mapGet_eq_none_of_not_mem t k0 h.1
      · simp [mapDelete, hk, mapGet, ih h.2]

theorem length_mapSet_of_get_none {V : Type} (m : TCache V) (k : String) (e : TEntry V)
    (h : mapGet m k = none) : (mapSet m k e).length = m.length + 1 := by
  induction m with
  | nil => simp [mapSet]
  | cons p t ih =>
      obtain ⟨k0, e0⟩ := p
      by_cases hk : k0 = k
      · simp [mapGet, hk] at h
      · simp only [mapGet, hk, if_false] at h
        simp [mapSet, hk, ih h]

/-! ## Merge-loop lemmas -/

theorem findProp_replaceOrPush_self (ps : List PropKV) (k v : String) :
    findProp (replaceOrPush ps k v) k = some ⟨k, v⟩ := by
  induction ps with
  | nil => simp [replaceOrPush, findProp]
  | cons p ps ih =>
      by_cases h : p.name = k
      · simp [replaceOrPush, findProp, h]
      · simpa [replaceOrPush, findProp, h] using ih

theorem findProp_replaceOrPush_ne (ps : List PropKV) (k q v : String) (h : k ≠ q) :
    findProp (replaceOrPush ps k v) q = findProp ps q := by
  induction ps with
  | nil => simp [replaceOrPush, findProp, h]
  | cons p ps ih =>
      by_cases hp : p.name = k
      · simp [replaceOrPush, findProp, hp, h]
      · have hrop : replaceOrPush (p :: ps) k v = p :: replaceOrPush ps k v := by
          simp [replaceOrPush, hp]
        rw [hrop]
        by_cases hq : p.name = q
        · simp [findProp, hq]
        · simpa [findProp, hq] using ih

theorem findProp_mergeStep_ne (f : String → Option String) (ps : List PropKV)
    (k q : String) (h : k ≠ q) :
    findProp (mergeStep f ps k) q = findProp ps q := by
  unfold mergeStep
  cases f k with
  | none => rfl
  | some val =>
      by_cases hv : val ≠ "" ∧ val ≠ "NA"
      · simp [hv, findProp_replaceOrPush_ne ps k q val h]
      · simp [hv]

theorem findProp_foldl_not_mem (f : String → Option String) (ks : List String)
    (ps : List PropKV) (q : String) (h : q ∉ ks) :
    findProp (ks.foldl (mergeStep f) ps) q = findProp ps q := by
  induction ks generalizing ps with
  | nil => rfl
  | cons k ks ih =>
      simp only [List.mem_cons, not_or] at h
      rw [List.foldl_cons, ih _ h.2, findProp_mergeStep_ne f ps k q (Ne.symm h.1)]

theorem findProp_foldl_mem (f : String → Option String) (ks : List String)
    (ps : List PropKV) (k : String) (hk : k ∈ ks) (hnd : ks.Nodup) :
    findProp (ks.foldl (mergeStep f) ps) k
      = (match f k with
         | some val => if val ≠ "" ∧ val ≠ "NA" then some ⟨k, val⟩ else findProp ps k
         | none => findProp ps k) := by
  induction ks generalizing ps with
  | nil => cases hk
  | cons k0 ks ih =>
      rw [List.foldl_cons]
      rcases List.mem_cons.mp hk with h | h
      · subst h
        have hnotin : k ∉ ks := (List.nodup_cons.mp hnd).1
        rw [findProp_foldl_not_mem f ks _ k hnotin]
        unfold mergeStep
        cases hf : f k with
        | none => rfl
        | some val =>
            by_cases hv : val ≠ "" ∧ val ≠ "NA"
            · simp [hv, findProp_replaceOrPush_self]
            · simp [hv]
      · by_cases hk0 : k = k0
        · exact absurd (hk0 ▸ h) (List.nodup_cons.mp hnd).1
        · rw [ih _ h (List.nodup_cons.mp hnd).2,
            findProp_mergeStep_ne f ps k0 k (Ne.symm hk0)]

/-! ## Claim theorems -/

/-- C1: the claim states that changing any relevant field — including an
external reference or the rating of an in-document vulnerability whose
`affects` list references the component — changes the component
fingerprint, and that changing any component field changes the document
fingerprint, with overwhelming probability. The code violates this
deterministically: `JSON.stringify` is called with an **array replacer**
(`Object.keys(componentData).sort()`), which filters object keys at
every nesting depth, so vulnerability records and external references
serialize as `{}` and, in `generateFileChecksum`, every per-component
entry serializes as `{}`. This theorem evaluates the embedded code at
the failing inputs: two vulnerability records that differ only in their
rating give equal component fingerprints, and two documents whose only
component differs in name and version give equal file fingerprints.
That the inputs genuinely differ is witnessed by serializing them with a
replacer that keeps the nested keys. -/
theorem c1_fingerprint_insensitive :
    serVal ["id", "affects", "ref", "ratings", "severity"] c1VulnHigh
      ≠ serVal ["id", "affects", "ref", "ratings", "severity"] c1VulnLow
    ∧ generateComponentChecksum c1Comp [c1VulnHigh]
        = generateComponentChecksum c1Comp [c1VulnLow]
    ∧ serVal ["components", "name", "version"] (JsVal.obj c1SbomA)
      ≠ serVal ["components", "name", "version"] (JsVal.obj c1SbomB)
    ∧ generateFileChecksum c1SbomA = generateFileChecksum c1SbomB := by
  exact ⟨by decide, by decide, by decide, by decide⟩

/-- C2 (counterexample): with the vulnerability promise rejected and the
package promise resolved to a record carrying a release date, the code
returns the fixed degraded `errorProps` — not the merge of the remaining
sources with `null` for the failed one that the claim prescribes. -/
theorem c2_single_failure_counterexample :
    fetchComponentDataFull c2Comp (some c2Pi) [] (fun _ => "None")
        (Except.ok (some c2Pkg)) (Except.error ()) (Except.ok none) (Except.ok none)
      = errorProps c2Comp
    ∧ fetchComponentDataFull c2Comp (some c2Pi) [] (fun _ => "None")
        (Except.ok (some c2Pkg)) (Except.error ()) (Except.ok none) (Except.ok none)
      ≠ mergeProps c2Comp (some c2Pi) [] (fun _ => "None") (some c2Pkg) none none none := by
  exact ⟨rfl, by decide⟩

/-- C2 (amended): the four external calls are awaited jointly with
`Promise.all`, so a rejected promise from any single source rejects the
whole group; the `catch` branch then returns the fixed degraded error
`PropertySet`, and none of the successful sources' values are merged.
(Per-source failure tolerance relies on the external clients themselves
resolving `null` instead of rejecting.) -/
theorem c2_promiseAll_rejection (c : Component) (pkgInfo : Option PkgInfo)
    (sbomVulns : List SbomVuln) (extCrit : Option VulnData → String)
    (pkgRes : Except Unit (Option PkgData)) (vulnRes : Except Unit (Option VulnData))
    (ghRes : Except Unit (Option GhData)) (eolRes : Except Unit (Option String))
    (h : pkgRes = Except.error () ∨ vulnRes = Except.error () ∨ ghRes = Except.error ()
         ∨ eolRes = Except.error ()) :
    fetchComponentDataFull c pkgInfo sbomVulns extCrit pkgRes vulnRes ghRes eolRes
      = errorProps c := by
  cases pkgRes <;> cases vulnRes <;> cases ghRes <;> cases eolRes <;>
    simp_all [fetchComponentDataFull]

/-- Witness for the amended C2 theorem at a concrete input. -/
theorem c2_promiseAll_rejection_witness :
    fetchComponentDataFull c2Comp (some c2Pi) [] (fun _ => "None")
        (Except.ok (some c2Pkg)) (Except.error ()) (Except.ok none) (Except.ok none)
      = errorProps c2Comp :=
  c2_promiseAll_rejection c2Comp (some c2Pi) [] (fun _ => "None")
    (Except.ok (some c2Pkg)) (Except.error ()) (Except.ok none) (Except.ok none)
    (Or.inr (Or.inl rfl))

/-- C3: when the applicable dependency keys are cache-resident
(`isAllDataCached` true), the synchronous fast path
`buildPropertiesFromCachedData` returns a `PropertySet` equal to the one
the full concurrent-fetch path produces from the same underlying source
values (the cached value of each dependency key equalling the value the
corresponding fetch would resolve to). -/
theorem c3_fastPath_equiv (c : Component) (pi : PkgInfo) (repoUrl : Option String)
    (sbomVulns : List SbomVuln) (extCrit : Option VulnData → String)
    (cacheGet : String → Option CachedData) (eolDate : Option String)
    (pkgV : Option PkgData) (vulnV : Option VulnData) (ghV : Option GhData)
    (hall : isAllDataCached (some pi) repoUrl (fun k => (cacheGet k).isSome) = true)
    (hpkg : pkgDataFromCache pi cacheGet = pkgV)
    (hvuln : asVuln (cacheGet (generateKey "vuln" [pi.ecosystem, pi.name])) = vulnV)
    (hgh : ghDataFromCache repoUrl cacheGet = ghV) :
    buildPropertiesFromCachedData c pi repoUrl sbomVulns extCrit cacheGet eolDate
      = fetchComponentDataFull c (some pi) sbomVulns extCrit
          (Except.ok pkgV) (Except.ok vulnV) (Except.ok ghV) (Except.ok eolDate) := by
  subst hpkg hvuln hgh
  rfl

/-- Witness for C3 at a concrete cache-resident component. -/
theorem c3_fastPath_equiv_witness :
    isAllDataCached (some c3Pi) none (fun k => (c3CacheGet k).isSome) = true
    ∧ buildPropertiesFromCachedData c3Comp c3Pi none [] (fun _ => "None") c3CacheGet none
        = fetchComponentDataFull c3Comp (some c3Pi) [] (fun _ => "None")
            (Except.ok (some c3Pkg)) (Except.ok (some c3Vuln)) (Except.ok none)
            (Except.ok none) :=
  ⟨by decide,
   c3_fastPath_equiv c3Comp c3Pi none [] (fun _ => "None") c3CacheGet none
     (some c3Pkg) (some c3Vuln) none (by decide) (by decide) (by decide) (by decide)⟩

/-- C4: `computePatchStatus` returns, in order:
`"Update available (>= f)"` when the aggregate reports vulnerabilities
and its fixed-version list is non-empty with first element `f`;
`"Update available (>= NA)"` when it reports vulnerabilities with an
empty or absent fixed-version list; `"Update available (latest l)"` when
there are no vulnerabilities and the (present, non-empty) latest version
`l` differs from the (present, non-empty) installed version; and
`"Up to date"` otherwise. -/
theorem c4_computePatchStatus_cases (vd : Option VulnData) (pi : Option PkgInfo)
    (pd : Option PkgData) :
    ((vd.map (fun v => v.hasVulnerabilities)).getD false = true →
      (∀ f fs, vd.bind (fun v => v.fixedVersions) = some (f :: fs) →
          computePatchStatus vd pi pd = "Update available (>= " ++ f ++ ")")
      ∧ ((vd.bind (fun v => v.fixedVersions) = none
            ∨ vd.bind (fun v => v.fixedVersions) = some []) →
          computePatchStatus vd pi pd = "Update available (>= NA)"))
    ∧ ((vd.map (fun v => v.hasVulnerabilities)).getD false = false →
      (∀ l v, pd.bind (fun d => d.latestVersion) = some l →
          pi.bind (fun p => p.version) = some v → l ≠ "" → v ≠ "" → l ≠ v →
          computePatchStatus vd pi pd = "Update available (latest " ++ l ++ ")")
      ∧ ((∀ l v, pd.bind (fun d => d.latestVersion) = some l →
            pi.bind (fun p => p.version) = some v → l = "" ∨ v = "" ∨ l = v) →
          computePatchStatus vd pi pd = "Up to date")) := by
  constructor
  · intro hv
    constructor
    · intro f fs hf
      simp [computePatchStatus, hv, hf]
    · intro hor
      rcases hor with h | h <;> simp [computePatchStatus, hv, h]
  · intro hv
    constructor
    · intro l v hl hvv hl0 hv0 hlv
      simp [computePatchStatus, hv, hl, hvv, hl0, hv0, hlv]
    · intro hno
      simp only [computePatchStatus, hv, Bool.false_eq_true, if_false]
      cases hl : pd.bind (fun d => d.latestVersion) with
      | none => rfl
      | some l =>
          cases hvv : pi.bind (fun p => p.version) with
          | none => rfl
          | some v =>
              have := hno l v hl hvv
              have hcond : ¬(l ≠ "" ∧ v ≠ "" ∧ l ≠ v) := by tauto
              simp [hcond]

/-- Witness for C4: all four branches at concrete inputs. -/
theorem c4_computePatchStatus_cases_witness :
    computePatchStatus (some ⟨true, some 1, some ["4.17.21"], none⟩) none none
      = "Update available (>= " ++ "4.17.21" ++ ")"
    ∧ computePatchStatus (some ⟨true, some 1, some [], none⟩) none none
      = "Update available (>= NA)"
    ∧ computePatchStatus none (some ⟨"npm", "lodash", none, some "4.17.20"⟩)
        (some ⟨none, none, some "4.17.21", none, none⟩)
      = "Update available (latest " ++ "4.17.21" ++ ")"
    ∧ computePatchStatus none none none = "Up to date" :=
  ⟨((c4_computePatchStatus_cases (some ⟨true, some 1, some ["4.17.21"], none⟩) none none).1
      rfl).1 "4.17.21" [] rfl,
   ((c4_computePatchStatus_cases (some ⟨true, some 1, some [], none⟩) none none).1
      rfl).2 (Or.inr rfl),
   ((c4_computePatchStatus_cases none (some ⟨"npm", "lodash", none, some "4.17.20"⟩)
      (some ⟨none, none, some "4.17.21", none, none⟩)).2 rfl).1 "4.17.21" "4.17.20"
      rfl rfl (by decide) (by decide) (by decide),
   ((c4_computePatchStatus_cases none none none).2 rfl).2 (fun l v hl hv => nomatch hl)⟩

/-- C5: the claim states that when the derived patch status indicates an
update is needed but no fixed version is known, the note
`"Recommended version: NA"` is appended to the comments. The code
appends that note only when the patch status equals the exact string
`"Update available"`, which `computePatchStatus` never returns, so the
note is never appended: at this failing input the patch status is
`"Update available (>= NA)"` yet the comments carry no recommendation
note at all. -/
theorem c5_na_note_never_appended :
    (mergeProps c5Comp (some c5Pi) [] (fun _ => "None") none (some c5Vd) none
        none).patchStatus = "Update available (>= NA)"
    ∧ (mergeProps c5Comp (some c5Pi) [] (fun _ => "None") none (some c5Vd) none
        none).comments = "2 known vulnerabilities"
    ∧ strIncludes
        (mergeProps c5Comp (some c5Pi) [] (fun _ => "None") none (some c5Vd) none
          none).comments "Recommended version" = false := by
  exact ⟨by decide, by decide, by decide⟩

/-- C6: after `setWithTTL(k, v, ttl)` at time `t0` with `ttl > 0`, a
`getWithTTL(k)` more than `ttl` milliseconds later deletes the entry and
returns absent; a `getWithTTL(k)` within the ttl returns `v`; and after
`setWithTTL(k, v, 0)` the entry never expires. -/
theorem c6_ttl_expiry {V : Type} (m : TCache V) (k : String) (v : V) (ttl t0 t1 : Nat)
    (hnd : (m.map Prod.fst).Nodup) :
    (0 < ttl → t0 + ttl < t1 →
      getWithTTL (setWithTTL m k v ttl t0) k t1
        = (mapDelete (setWithTTL m k v ttl t0) k, none)
      ∧ mapGet (getWithTTL (setWithTTL m k v ttl t0) k t1).1 k = none)
    ∧ (0 < ttl → t0 ≤ t1 → t1 ≤ t0 + ttl →
      (getWithTTL (setWithTTL m k v ttl t0) k t1).2 = some v)
    ∧ (ttl = 0 → (getWithTTL (setWithTTL m k v ttl t0) k t1).2 = some v) := by
  have hget : mapGet (setWithTTL m k v ttl t0) k = some ⟨v, t0, ttl⟩ :=
    mapGet_mapSet_self m k _
  refine ⟨?_, ?_, ?_⟩
  · intro h1 h2
    have hcond : 0 < ttl ∧ ttl < t1 - t0 := ⟨h1, by omega⟩
    constructor
    · simp [getWithTTL, hget, hcond]
    · simp only [getWithTTL, hget]
      rw [if_pos hcond]
      exact mapGet_mapDelete_self _ k (nodup_mapSet m k _ hnd)
  · intro h1 h2 h3
    have hcond : ¬(0 < ttl ∧ ttl < t1 - t0) := by omega
    simp [getWithTTL, hget, hcond]
  · intro h0
    subst h0
    simp [getWithTTL, hget]

/-- Witness for C6 at the spec's own concrete scenario
(`ttl = 10`, read at 11, at 10, and `ttl = 0` read much later). -/
theorem c6_ttl_expiry_witness :
    (getWithTTL (setWithTTL ([] : TCache String) "k" "v" 10 0) "k" 11).2 = none
    ∧ mapGet (getWithTTL (setWithTTL ([] : TCache String) "k" "v" 10 0) "k" 11).1 "k" = none
    ∧ (getWithTTL (setWithTTL ([] : TCache String) "k" "v" 10 0) "k" 10).2 = some "v"
    ∧ (getWithTTL (setWithTTL ([] : TCache String) "k" "v" 0 0) "k" 999999).2 = some "v" := by
  refine ⟨?_, ?_, ?_, ?_⟩
  · have h := (c6_ttl_expiry ([] : TCache String) "k" "v" 10 0 11 (by simp)).1
      (by omega) (by omega)
    rw [h.1]
  · exact ((c6_ttl_expiry ([] : TCache String) "k" "v" 10 0 11 (by simp)).1
      (by omega) (by omega)).2
  · exact (c6_ttl_expiry ([] : TCache String) "k" "v" 10 0 10 (by simp)).2.1
      (by omega) (by omega) (by omega)
  · exact (c6_ttl_expiry ([] : TCache String) "k" "v" 0 0 999999 (by simp)).2.2 rfl

/-- C7: a persisted snapshot strictly older than 24 hours is discarded
in full on initialization — the in-memory cache stays empty and the
persisted item is removed — and a corrupt (unparsable) snapshot is
treated as absent with the persisted item wiped. -/
theorem c7_snapshot_discard {V : Type} (d : SnapData V) (now ts : Nat) :
    (d.timestamp = some ts → ts + maxCacheAge < now →
      loadFromStorage (some (Except.ok d)) now = ⟨[], now, none⟩)
    ∧ loadFromStorage (some (Except.error ()) : Option (Except Unit (SnapData V))) now
        = ⟨[], now, none⟩ := by
  constructor
  · intro h1 h2
    have hcond : ¬(ts ≠ 0 ∧ now - ts < maxCacheAge) := by
      intro hc
      omega
    simp [loadFromStorage, h1, hcond]
  · rfl

/-- Witness for C7: a snapshot written at time 1 loaded just past the
24-hour mark, and a corrupt snapshot. -/
theorem c7_snapshot_discard_witness :
    loadFromStorage
        (some (Except.ok (⟨some [("k", "v")], some 1, some 1⟩ : SnapData String))) 86400002
      = ⟨[], 86400002, none⟩
    ∧ loadFromStorage (some (Except.error ()) : Option (Except Unit (SnapData String))) 5
      = ⟨[], 5, none⟩ :=
  ⟨(c7_snapshot_discard (⟨some [("k", "v")], some 1, some 1⟩ : SnapData String)
      86400002 1).1 rfl (by decide),
   (c7_snapshot_discard (⟨none, none, none⟩ : SnapData String) 5 0).2⟩

/-- C8: `generateComponentChecksum` is a pure function of the component
object's **relevant** fields: two components whose relevant fields —
the seven keys the code reads: `name`, `version`, `purl`, `group`,
`externalReferences`, `bom-ref` and `bomRef` — are equal as values,
regardless of the insertion order of the objects' keys and of any
irrelevant fields, yield identical fingerprint strings for the same
document vulnerability list. -/
theorem c8_checksum_key_order (comp1 comp2 : JsObj) (vulns : List JsVal)
    (hname : objGet comp1 "name" = objGet comp2 "name")
    (hversion : objGet comp1 "version" = objGet comp2 "version")
    (hpurl : objGet comp1 "purl" = objGet comp2 "purl")
    (hgroup : objGet comp1 "group" = objGet comp2 "group")
    (hext : objGet comp1 "externalReferences" = objGet comp2 "externalReferences")
    (hbomH : objGet comp1 "bom-ref" = objGet comp2 "bom-ref")
    (hbomC : objGet comp1 "bomRef" = objGet comp2 "bomRef") :
    generateComponentChecksum comp1 vulns = generateComponentChecksum comp2 vulns := by
  simp only [generateComponentChecksum, hname, hversion, hpurl, hgroup, hext, hbomH, hbomC]

/-- Witness for C8: two objects equal on the relevant fields but with
opposite insertion orders and a differing irrelevant `description`
field fingerprint identically. -/
theorem c8_checksum_key_order_witness :
    serVal ["description"] (JsVal.obj c8a) ≠ serVal ["description"] (JsVal.obj c8b)
    ∧ generateComponentChecksum c8a [] = generateComponentChecksum c8b [] :=
  ⟨by decide, c8_checksum_key_order c8a c8b [] rfl rfl rfl rfl rfl rfl rfl⟩

/-- C9: the document-level merge overwrites (or adds) a CERT-In property
only when the derived value is present (truthy) and not the sentinel
`"NA"`; otherwise the previously stored property is left unchanged, and
every component field other than `properties` is preserved verbatim. -/
theorem c9_merge_frame (c : AppComponent) (fetched : String → Option String) (k : String) :
    (mergeComponent c fetched).rest = c.rest
    ∧ (k ∈ certInKeys → ∀ val, fetched k = some val → val ≠ "" → val ≠ "NA" →
        findProp (mergeComponent c fetched).properties k = some ⟨k, val⟩)
    ∧ (k ∈ certInKeys →
        (fetched k = none ∨ fetched k = some "" ∨ fetched k = some "NA") →
        findProp (mergeComponent c fetched).properties k = findProp c.properties k)
    ∧ (k ∉ certInKeys →
        findProp (mergeComponent c fetched).properties k = findProp c.properties k) := by
  have hnd : certInKeys.Nodup := by decide
  refine ⟨rfl, ?_, ?_, ?_⟩
  · intro hk val hf h1 h2
    simp only [mergeComponent]
    rw [findProp_foldl_mem fetched certInKeys c.properties k hk hnd, hf]
    simp [h1, h2]
  · intro hk hor
    simp only [mergeComponent]
    rw [findProp_foldl_mem fetched certInKeys c.properties k hk hnd]
    rcases hor with h | h | h <;> simp [h]
  · intro hk
    exact findProp_foldl_not_mem fetched certInKeys c.properties k hk

/-- Witness for C9: a real value overwrites, an `"NA"` value leaves the
old property, a non-CERT-In property is untouched, and the other fields
survive. -/
theorem c9_merge_frame_witness :
    findProp (mergeComponent c9c c9f).properties "Patch Status"
      = some ⟨"Patch Status", "Up to date"⟩
    ∧ findProp (mergeComponent c9c c9f).properties "Criticality"
      = findProp c9c.properties "Criticality"
    ∧ findProp (mergeComponent c9c c9f).properties "Custom"
      = findProp c9c.properties "Custom"
    ∧ (mergeComponent c9c c9f).rest = c9c.rest := by
  refine ⟨?_, ?_, ?_, (c9_merge_frame c9c c9f "Custom").1⟩
  · exact (c9_merge_frame c9c c9f "Patch Status").2.1 (by decide) "Up to date" rfl
      (by decide) (by decide)
  · exact (c9_merge_frame c9c c9f "Criticality").2.2.1 (by decide)
      (Or.inr (Or.inr rfl))
  · exact (c9_merge_frame c9c c9f "Custom").2.2.2 (by decide)

/-- C10: the plain `get`/`has` operations and `getStats` do not honor TTL
expiry: for an entry stored with `setWithTTL` whose ttl has elapsed,
`has` still answers true, `get` returns the stored
`{value, timestamp, ttl}` wrapper object, and `getStats` still counts
the entry among size and keys — while `getWithTTL` on the same cache
performs the lazy expiry and returns absent. -/
theorem c10_plain_ops_ignore_ttl {V : Type} (m : TCache V) (k : String) (v : V)
    (ttl t0 t1 sess : Nat) (hnd : (m.map Prod.fst).Nodup) (hfresh : mapGet m k = none)
    (h1 : 0 < ttl) (h2 : t0 + ttl < t1) :
    mapHas (setWithTTL m k v ttl t0) k = true
    ∧ mapGet (setWithTTL m k v ttl t0) k = some ⟨v, t0, ttl⟩
    ∧ (getStats (setWithTTL m k v ttl t0) t1 sess).size = m.length + 1
    ∧ k ∈ (getStats (setWithTTL m k v ttl t0) t1 sess).keys
    ∧ (getWithTTL (setWithTTL m k v ttl t0) k t1).2 = none := by
  have hget : mapGet (setWithTTL m k v ttl t0) k = some ⟨v, t0, ttl⟩ :=
    mapGet_mapSet_self m k _
  refine ⟨?_, hget, ?_, ?_, ?_⟩
  · simp [mapHas, hget]
  · simpa [getStats] using length_mapSet_of_get_none m k _ hfresh
  · show k ∈ (mapSet m k ⟨v, t0, ttl⟩).map Prod.fst
    rw [mem_map_fst_mapSet]
    exact Or.inr rfl
  · have hcond : 0 < ttl ∧ ttl < t1 - t0 := ⟨h1, by omega⟩
    simp [getWithTTL, hget, hcond]

/-- Witness for C10: a fully expired entry is still visible to `get`,
`has` and `getStats`, while `getWithTTL` expires it. -/
theorem c10_plain_ops_ignore_ttl_witness :
    mapHas (setWithTTL ([] : TCache String) "k" "v" 10 0) "k" = true
    ∧ mapGet (setWithTTL ([] : TCache String) "k" "v" 10 0) "k" = some ⟨"v", 0, 10⟩
    ∧ (getStats (setWithTTL ([] : TCache String) "k" "v" 10 0) 11 0).size = 0 + 1
    ∧ "k" ∈ (getStats (setWithTTL ([] : TCache String) "k" "v" 10 0) 11 0).keys
    ∧ (getWithTTL (setWithTTL ([] : TCache String) "k" "v" 10 0) "k" 11).2 = none :=
  c10_plain_ops_ignore_ttl ([] : TCache String) "k" "v" 10 0 11 0
    (by simp) rfl (by omega) (by omega)

end SbomMapper
